import Mathlib

/-!
Verification of the ANVI travel-assistant backend
(`main.py`, `services/{intent_service,data_service,rag_service,llm_service}.py`).

Python strings are modelled as lists of Unicode code points (`List Nat`);
all string operations used by the sources (lower-casing, stripping,
whitespace splitting, substring containment, joining) are defined on that
representation, restricted to the ASCII fragment the repository's data and
keyword tables live in.  External collaborators (the HTTP catalog fetch,
the PostgreSQL memory store, the Groq completion call, image-URL building)
are modelled as function parameters or omitted side effects, exactly as the
specification declares them out of scope.
-/

namespace Anvi

/-- A Python string: its list of Unicode code points. -/
abbrev Str := List Nat

/-- Embed a Lean string literal as a `Str`. -/
def pystr (s : String) : Str := s.toList.map Char.toNat

/-- ASCII lower-casing of one code point (Python `str.lower`, ASCII fragment). -/
def lowerCp (n : Nat) : Nat := if 65 ≤ n ∧ n ≤ 90 then n + 32 else n

/-- Python `str.lower()`. -/
def pyLower (s : Str) : Str := s.map lowerCp

/-- Whitespace test used by Python `str.strip()` / `str.split()`
(space, tab, newline, carriage return, vertical tab, form feed). -/
def isSpaceCp (n : Nat) : Bool :=
  n == 32 || n == 9 || n == 10 || n == 13 || n == 11 || n == 12

/-- Left strip: drop leading whitespace. -/
def lstrip (s : Str) : Str := s.dropWhile isSpaceCp

/-- Right strip: drop trailing whitespace. -/
def rstrip (s : Str) : Str := (s.reverse.dropWhile isSpaceCp).reverse

/-- Python `str.strip()`. -/
def pyStrip (s : Str) : Str := rstrip (lstrip s)

/-- Does `p` occur as a leading segment of `s`?  (Python `str.startswith`.) -/
def strStarts (p s : Str) : Bool :=
  match p, s with
  | [], _ => true
  | _ :: _, [] => false
  | a :: ps, b :: ss => a == b && strStarts ps ss

/-- Python's substring test `needle in haystack`. -/
def pyIn (needle : Str) : Str → Bool
  | [] => strStarts needle []
  | c :: rest => strStarts needle (c :: rest) || pyIn needle rest

/-- Maximal runs of code points satisfying `keep`
(the generic worker behind `str.split()` and word tokenisation). -/
def splitP (keep : Nat → Bool) : Str → List Str
  | [] => []
  | c :: cs =>
    if keep c then
      match cs with
      | [] => [[c]]
      | d :: _ =>
        if keep d then
          match splitP keep cs with
          | [] => [[c]]
          | t :: ts => (c :: t) :: ts
        else [c] :: splitP keep cs
    else splitP keep cs

/-- Python `str.split()` with no argument: split on whitespace runs,
dropping empty pieces. -/
def pySplit (s : Str) : List Str := splitP (fun c => !isSpaceCp c) s

/-- Python `sep.join(parts)`. -/
def pyJoin (sep : Str) : List Str → Str
  | [] => []
  | [t] => t
  | t :: u :: ts => t ++ sep ++ pyJoin sep (u :: ts)

/-- Python truthy-or on strings: `a or b`. -/
def pyOr (a b : Str) : Str := if a = [] then b else a

/-- Decimal rendering of a natural number (for f-string interpolation of
list indices). -/
def natToStr (n : Nat) : Str :=
  if h : n < 10 then [48 + n] else natToStr (n / 10) ++ [48 + n % 10]
decreasing_by
  exact Nat.div_lt_self (Nat.lt_of_lt_of_le (by norm_num) (Nat.le_of_not_lt h)) (by norm_num)

/-- Stable insertion (descending by `key`): the new element goes before the
first element whose key is not larger, so that an element inserted later
(i.e. occurring earlier in the original list) precedes equal keys. -/
def insertDescBy (key : α → Nat) (x : α) : List α → List α
  | [] => [x]
  | y :: ys => if key x < key y then y :: insertDescBy key x ys else x :: y :: ys

/-- Stable sort, descending by `key` — the semantics of Python's stable
`list.sort(key=..., reverse=True)` / `sorted(..., key=lambda x: -len(...))`. -/
def sortDescBy (key : α → Nat) : List α → List α
  | [] => []
  | x :: xs => insertDescBy key x (sortDescBy key xs)

/-! ## services/data_service.py -/

/-- `normalize_name` (data_service.py): lower-case, strip, drop the tokens
`"hotel"` and `"the"`, re-join with single spaces, strip. -/
def normalize_name (name : Str) : Str :=
  if name = [] then []
  else
    let normalized := pyStrip (pyLower name)
    let tokens := pySplit normalized
    let tokens := tokens.filter (fun t => !(t == pystr "hotel") && !(t == pystr "the"))
    pyStrip (pyJoin (pystr " ") tokens)

example : normalize_name (pystr "The Hotel Vaishali Nashik") = pystr "vaishali nashik" := by decide
example : normalize_name (pystr "  Hotels ") = pystr "hotels" := by decide
example : normalize_name (pystr "Hotel") = [] := by decide

/-- A raw catalog item as fetched from the search provider (the fields the
verified code reads; a missing field is the empty string, matching
`item.get(k, "")` / falsy `None`).  `normalized_category` and `score` hold
the `normalized_category` / `_score` entries written into the item dict by
`search_api`; they start out absent (empty / zero) on raw items.
The image fields consumed by `build_image_url` (an external utility,
out of the specification's scope) are omitted: no verified property reads
them. -/
structure Item where
  vendor_name : Str := []
  name : Str := []
  category : Str := []
  sub_category : Str := []
  type_field : Str := []
  description : Str := []
  short_description : Str := []
  address : Str := []
  location : Str := []
  area_name : Str := []
  zone_name : Str := []
  area : Str := []
  rating : Str := []
  star_rating : Str := []
  normalized_category : Str := []
  score : Nat := 0
  deriving DecidableEq, Repr

/-- The generic-name guard set of `resolve_entity` (data_service.py)
and of the override block in `main.py`. -/
def GENERIC_NAMES : List Str :=
  [pystr "hotel", pystr "hotels", pystr "resort", pystr "villa"]

/-- The slice of the dictionary built by `normalize_hotel_entity` that the
verified properties read (`name`, `rating`, `address`, `description`);
the remaining entries (phone, amenities, facility booleans, …) are carried
the same way by the source and are never inspected by any claim. -/
structure Entity where
  name : Str
  rating : Str
  address : Str
  description : Str
  deriving DecidableEq, Repr

/-- `normalize_hotel_entity` (data_service.py), restricted to the fields of
`Entity`: `"name": hotel.get("name") or hotel.get("vendor_name")`, etc. -/
def normalize_hotel_entity (hotel : Item) : Entity :=
  { name := pyOr hotel.name hotel.vendor_name
    rating := hotel.star_rating
    address := hotel.address
    description := pyOr hotel.description hotel.short_description }

/-- Pass 1 of `resolve_entity`: exact match of normalized names, vendor
field first, then name field, first catalog-order hit wins. -/
def pass1 (entN : Str) : List Item → Option Item
  | [] => none
  | i :: rest =>
    if i.vendor_name ≠ [] ∧ normalize_name i.vendor_name ≠ [] ∧
        entN = normalize_name i.vendor_name then some i
    else if i.name ≠ [] ∧ normalize_name i.name ≠ [] ∧
        entN = normalize_name i.name then some i
    else pass1 entN rest

/-- Guard + bidirectional containment test of pass 2 on the vendor field. -/
def pass2Vendor (entN : Str) (i : Item) : Bool :=
  !i.vendor_name.isEmpty &&
    (let vn := normalize_name i.vendor_name
     !vn.isEmpty && !(GENERIC_NAMES.contains vn) && (pyIn entN vn || pyIn vn entN))

/-- Guard + bidirectional containment test of pass 2 on the name field. -/
def pass2Name (entN : Str) (i : Item) : Bool :=
  !i.name.isEmpty &&
    (let nn := normalize_name i.name
     !nn.isEmpty && !(GENERIC_NAMES.contains nn) && (pyIn entN nn || pyIn nn entN))

/-- Pass 2 of `resolve_entity`: fuzzy (bidirectional substring containment)
match, skipping any field whose normalized value is a generic name. -/
def pass2 (entN : Str) : List Item → Option Item
  | [] => none
  | i :: rest =>
    if pass2Vendor entN i then some i
    else if pass2Name entN i then some i
    else pass2 entN rest

/-- The deterministic core of `resolve_entity` (data_service.py), applied to
the normalized item list extracted from the provider response (the HTTP
fetch itself is the external Catalog Search Provider; a transport failure
or an empty `data.search_data` yields an empty list and `None`). -/
def resolve_entity (entity_name : Str) (items : List Item) : Option Entity :=
  if items = [] then none
  else
    let entN := normalize_name entity_name
    if entN = [] then none
    else
      match pass1 entN items with
      | some i => some (normalize_hotel_entity i)
      | none => (pass2 entN items).map normalize_hotel_entity

/-- The rule cascade of `canonical_category` (data_service.py) over the
already lower-cased, stripped raw category `c`. -/
def canonical_category_core (c : Str) : Str :=
  if pyIn (pystr "hotel") c then pystr "hotel"
    else if pyIn (pystr "resort") c then pystr "resort"
    else if pyIn (pystr "villa") c then pystr "villa"
    else if pyIn (pystr "restaurant") c || pyIn (pystr "cafe") c then pystr "restaurant"
    else if pyIn (pystr "medical") c || pyIn (pystr "hospital") c then pystr "hospital"
    else if pyIn (pystr "office") c then pystr "office"
    else if pyIn (pystr "theater") c || pyIn (pystr "theatre") c ||
        pyIn (pystr "theaters") c || pyIn (pystr "theatres") c then pystr "theater"
    else if pyIn (pystr "museum") c then pystr "museum"
    else if pyIn (pystr "religious") c || pyIn (pystr "temple") c ||
        pyIn (pystr "mandir") c || pyIn (pystr "ashram") c then pystr "religious"
    else if pyIn (pystr "trek") c then pystr "treks"
    else if pyIn (pystr "adventure") c || pyIn (pystr "one-day") c then pystr "adventure"
    else if pyIn (pystr "wildlife") c || pyIn (pystr "nature") c then pystr "wildlife"
    else if pyIn (pystr "picnic") c then pystr "picnic"
    else if pyIn (pystr "wine") c then pystr "wine"
    else if pyIn (pystr "shopping") c then pystr "shopping"
    else c

/-- `canonical_category` (data_service.py): `""` on a falsy input, else the
first-match-wins substring cascade over the lower-cased, stripped string. -/
def canonical_category (raw_category : Str) : Str :=
  if raw_category = [] then []
  else canonical_category_core (pyStrip (pyLower raw_category))

example : canonical_category (pystr "Hotels") = pystr "hotel" := by decide
example : canonical_category (pystr "theatre") = pystr "theater" := by decide

/-- The intent dictionary built by `detect_intent` (intent_service.py).
`itype` / `entity_name` model the `"type"` / `"entity_name"` entries, which
are present only when set (hence `Option`).  `keywords` models the value
read by `intent.get("keywords", [])` in `score_item`; the dictionary built
by `detect_intent` carries no such key, so `detect_intent` yields `[]`
(the key list reified by `intentDict` below accordingly omits it). -/
structure Intent where
  raw_query : Str := []
  action : Str := pystr "search"
  search_domain : Option Str := none
  attributes : List Str := []
  must_have : List Str := []
  entity : Option Str := none
  exploratory : Bool := false
  itype : Option Str := none
  entity_name : Option Str := none
  keywords : List Str := []
  deriving DecidableEq, Repr

/-- The concatenated, lower-cased sub-category/category/description text
scored by `score_item` (the f-string inserts single spaces). -/
def itemScoreText (item : Item) : Str :=
  pyLower (item.sub_category ++ pystr " " ++ item.category ++ pystr " " ++ item.description)

/-- `score_item` (data_service.py): one point per intent keyword occurring
in the item's concatenated text. -/
def score_item (item : Item) (intent : Intent) : Nat :=
  intent.keywords.foldl
    (fun score kw => if pyIn kw (itemScoreText item) then score + 1 else score) 0

/-- The normalization + scoring stage of `search_api` (data_service.py):
attach `normalized_category` and `_score` to every fetched item. -/
def scoredItems (rawItems : List Item) (intent : Intent) : List Item :=
  (rawItems.map fun i => { i with normalized_category := canonical_category i.category }).map
    fun i => { i with score := score_item i intent }

/-- The ranking tail of `search_api` (data_service.py): keep the items with
positive score sorted descending by score (Python's stable sort), truncated
to `limit`; if nothing scored, return the whole normalized slice truncated
to `limit`.  The HTTP fetch feeding `rawItems` is the external Catalog
Search Provider. -/
def search_rank (rawItems : List Item) (intent : Intent) (limit : Nat) : List Item :=
  let scored := scoredItems rawItems intent
  let matched := scored.filter (fun i => decide (0 < i.score))
  if matched.isEmpty then scored.take limit
  else (sortDescBy (fun i => i.score) matched).take limit

/-! ## services/intent_service.py -/

/-- `ATTRIBUTE_KEYWORDS` (intent_service.py), in source (= Python dict
insertion) order. -/
def ATTRIBUTE_KEYWORDS : List (Str × List Str) :=
  [ (pystr "rating", [pystr "rating", pystr "stars", pystr "star"])
  , (pystr "address", [pystr "address", pystr "where"])
  , (pystr "phone", [pystr "phone", pystr "contact", pystr "number"])
  , (pystr "amenities", [pystr "amenities", pystr "facilities", pystr "features"])
  , (pystr "parking", [pystr "parking"])
  , (pystr "pet_friendly", [pystr "pet", pystr "pets", pystr "pet-friendly"])
  , (pystr "price", [pystr "price", pystr "cost", pystr "tariff", pystr "rate", pystr "rates"])
  , (pystr "map", [pystr "map", pystr "directions", pystr "location"])
  , (pystr "vendor_name", [pystr "vendor name", pystr "vendor"])
  , (pystr "wifi", [pystr "wifi", pystr "wi-fi", pystr "internet"])
  , (pystr "pool", [pystr "pool", pystr "swimming"])
  , (pystr "bonfire", [pystr "bonfire"])
  , (pystr "google_location", [pystr "google location"])
  , (pystr "website", [pystr "website", pystr "site", pystr "url"])
  , (pystr "kitchen_available", [pystr "kitchen"])
  , (pystr "food_available", [pystr "food"])
  , (pystr "taxes_included", [pystr "tax", pystr "taxes", pystr "tax included"])
  , (pystr "price_unit", [pystr "price_unit", pystr "unit"])
  , (pystr "cancellation", [pystr "cancellation", pystr "cancel"])
  , (pystr "air_conditioned", [pystr "ac", pystr "air conditioned", pystr "air-conditioning"]) ]

/-- `PHRASE_TO_CATEGORY` (intent_service.py), in source order. -/
def PHRASE_TO_CATEGORY : List (Str × Str) :=
  [ (pystr "wine shop", pystr "wine")
  , (pystr "wine shops", pystr "wine")
  , (pystr "one day trip", pystr "adventure")
  , (pystr "one-day trip", pystr "adventure")
  , (pystr "day trips", pystr "adventure")
  , (pystr "guided tour", pystr "tours")
  , (pystr "guided tours", pystr "tours")
  , (pystr "picnic spot", pystr "picnic")
  , (pystr "picnic spots", pystr "picnic")
  , (pystr "movie theater", pystr "theater")
  , (pystr "movie theatres", pystr "theater")
  , (pystr "religious services", pystr "religious")
  , (pystr "mandir", pystr "religious")
  , (pystr "mandirs", pystr "religious")
  , (pystr "temples", pystr "religious")
  , (pystr "temple", pystr "religious")
  , (pystr "movie", pystr "theater")
  , (pystr "movies", pystr "theater")
  , (pystr "cinema", pystr "theater")
  , (pystr "cafe", pystr "restaurant")
  , (pystr "cafes", pystr "restaurant")
  , (pystr "trekking", pystr "treks")
  , (pystr "trek", pystr "treks")
  , (pystr "treks", pystr "treks")
  , (pystr "vineyard", pystr "wine")
  , (pystr "vineyards", pystr "wine")
  , (pystr "winery", pystr "wine")
  , (pystr "wineries", pystr "wine")
  , (pystr "wine", pystr "wine")
  , (pystr "ashram", pystr "ashram")
  , (pystr "ashrams", pystr "ashram")
  , (pystr "resort", pystr "resort")
  , (pystr "resorts", pystr "resort")
  , (pystr "villa", pystr "villa")
  , (pystr "villas", pystr "villa")
  , (pystr "hotel", pystr "hotel")
  , (pystr "hotels", pystr "hotel")
  , (pystr "restaurant", pystr "restaurant")
  , (pystr "restaurants", pystr "restaurant")
  , (pystr "hospital", pystr "hospital")
  , (pystr "hospitals", pystr "hospital")
  , (pystr "clinic", pystr "hospital")
  , (pystr "medical", pystr "hospital")
  , (pystr "office", pystr "office")
  , (pystr "offices", pystr "office")
  , (pystr "theater", pystr "theater")
  , (pystr "theatre", pystr "theater")
  , (pystr "theatres", pystr "theater")
  , (pystr "museum", pystr "museum")
  , (pystr "museums", pystr "museum")
  , (pystr "event", pystr "events")
  , (pystr "events", pystr "events")
  , (pystr "festival", pystr "events")
  , (pystr "festivals", pystr "events")
  , (pystr "mosque", pystr "religious")
  , (pystr "church", pystr "religious")
  , (pystr "worship", pystr "religious") ]

/-- `resolve_query_to_category` (intent_service.py): longest phrase first
(stable descending sort on phrase length), first textual match wins. -/
def resolve_query_to_category (query : Str) : Option Str :=
  let q := pyStrip (pyLower query)
  (sortDescBy (fun p => p.1.length) PHRASE_TO_CATEGORY).findSome?
    (fun p => if pyIn p.1 q then some p.2 else none)

example : resolve_query_to_category (pystr "wine shop near me") = some (pystr "wine") := by decide
example : resolve_query_to_category (pystr "xyz") = none := by decide

/-- `PURE_CATEGORY_WORDS` (intent_service.py). -/
def PURE_CATEGORY_WORDS : List Str :=
  [ pystr "hotel", pystr "hotels", pystr "resort", pystr "resorts", pystr "villa",
    pystr "villas", pystr "restaurant", pystr "restaurants", pystr "cafe", pystr "cafes",
    pystr "theater", pystr "theatres", pystr "hospital", pystr "hospitals", pystr "office",
    pystr "offices", pystr "ashram", pystr "ashrams", pystr "medical", pystr "lodging",
    pystr "food", pystr "movies", pystr "cinema", pystr "nashik" ]

/-- `STOPWORDS` (intent_service.py). -/
def STOPWORDS : List Str :=
  [ pystr "what", pystr "is", pystr "the", pystr "of", pystr "tell", pystr "me",
    pystr "about", pystr "rating", pystr "price", pystr "address", pystr "amenities",
    pystr "phone", pystr "location", pystr "where", pystr "map", pystr "directions",
    pystr "hotel", pystr "does", pystr "do", pystr "have", pystr "has", pystr "a",
    pystr "an", pystr "what\x27s", pystr "show", pystr "find", pystr "something",
    pystr "wifi", pystr "wi-fi", pystr "internet", pystr "pool", pystr "swimming",
    pystr "bonfire", pystr "website", pystr "site", pystr "url", pystr "kitchen",
    pystr "food", pystr "tax", pystr "taxes", pystr "cancellation", pystr "cancel",
    pystr "unit" ]

/-- The `DOMAIN_KEYWORDS` table local to `detect_intent` (intent_service.py),
in source order. -/
def DOMAIN_KEYWORDS : List (Str × List Str) :=
  [ (pystr "hotel", [pystr "hotel", pystr "hotels", pystr "stay", pystr "stays",
      pystr "lodging", pystr "accommodation"])
  , (pystr "resort", [pystr "resort", pystr "resorts"])
  , (pystr "villa", [pystr "villa", pystr "villas"])
  , (pystr "restaurant", [pystr "restaurant", pystr "restaurants", pystr "cafe",
      pystr "cafes", pystr "food", pystr "restaurants & cafes", pystr "eating",
      pystr "dining", pystr "eat"])
  , (pystr "events", [pystr "event", pystr "events", pystr "festival", pystr "festivals",
      pystr "festivities", pystr "happenings", pystr "events & festivals"])
  , (pystr "treks", [pystr "trek", pystr "treks", pystr "hiking", pystr "trekking",
      pystr "trail", pystr "trails"])
  , (pystr "activities", [pystr "activity", pystr "activities", pystr "things to do",
      pystr "city activities", pystr "city activity", pystr "things to do in city"])
  , (pystr "wine", [pystr "wine", pystr "vineyard", pystr "winery", pystr "wineries"])
  , (pystr "shopping", [pystr "shopping", pystr "mall", pystr "market", pystr "malls",
      pystr "markets", pystr "shop", pystr "stores"])
  , (pystr "religious", [pystr "temple", pystr "mosque", pystr "church", pystr "religious",
      pystr "religious services", pystr "worship"])
  , (pystr "wellness", [pystr "ayurveda", pystr "spa", pystr "wellness", pystr "ayurvedic",
      pystr "massage", pystr "retreat", pystr "wellness center", pystr "ayurveda & wellness"])
  , (pystr "kids", [pystr "kids", pystr "children", pystr "activities for kids",
      pystr "kids activities", pystr "children activities", pystr "family activities",
      pystr "activities for children"])
  , (pystr "attractions", [pystr "attraction", pystr "attractions", pystr "places to visit",
      pystr "places to explore", pystr "places to see", pystr "places to discover"])
  , (pystr "visitors", [pystr "visitor", pystr "visitors", pystr "visitor visit",
      pystr "visitor visits"])
  , (pystr "art", [pystr "art", pystr "art gallery", pystr "art galleries",
      pystr "art museum", pystr "art museums"])
  , (pystr "museum", [pystr "museum", pystr "museums", pystr "museum visit",
      pystr "museum visits"])
  , (pystr "history", [pystr "history", pystr "historical", pystr "historical places",
      pystr "historical places to visit", pystr "historical places to see",
      pystr "historical places to explore", pystr "historical places to discover"])
  , (pystr "hospital", [pystr "healthcare", pystr "hospital", pystr "hospitals",
      pystr "clinic", pystr "medical", pystr "nursing", pystr "management", pystr "dental",
      pystr "health", pystr "diagnostic", pystr "pathology", pystr "care center",
      pystr "iccu", pystr "icu", pystr "selfcare", pystr "emergency",
      pystr "emergency services", pystr "medical services", pystr "ambulance",
      pystr "doctor", pystr "pharmacy", pystr "emergency & medical"])
  , (pystr "ashram", [pystr "ashram", pystr "ashrams", pystr "ashram visit",
      pystr "ashram visits"])
  , (pystr "office", [pystr "office", pystr "offices", pystr "office visit",
      pystr "office visits", pystr "virtual office", pystr "virtual offices",
      pystr "coworking", pystr "coworking space", pystr "workspace"])
  , (pystr "theater", [pystr "movie", pystr "movies", pystr "movie theater",
      pystr "movie theaters", pystr "theater", pystr "theatre", pystr "theaters",
      pystr "theatres", pystr "cinema"])
  , (pystr "adventure", [pystr "adventure", pystr "one-day trip", pystr "day trip",
      pystr "one day trip", pystr "day trips", pystr "adventure activities",
      pystr "adventure & one-day trips"])
  , (pystr "wildlife", [pystr "wildlife", pystr "nature", pystr "safari",
      pystr "national park", pystr "nature spots", pystr "wildlife sanctuary",
      pystr "wildlife & nature", pystr "nature spots"])
  , (pystr "picnic", [pystr "picnic", pystr "picnic spot", pystr "picnic spots",
      pystr "picnic area", pystr "picnic spots"])
  , (pystr "tours", [pystr "guided tour", pystr "guided tours", pystr "tours",
      pystr "tour", pystr "sightseeing", pystr "guided tours"])
  , (pystr "today_happenings", [pystr "today\x27s happenings", pystr "today happenings",
      pystr "what\x27s on today", pystr "whats on today", pystr "going on today",
      pystr "today events", pystr "happenings today", pystr "today\x27s happenings",
      pystr "what is happening today"]) ]

/-- The exploratory discovery phrases of `detect_intent`. -/
def EXPLORATORY_PHRASES : List Str :=
  [ pystr "fun activities", pystr "things to do", pystr "what to do", pystr "discover",
    pystr "explore", pystr "experiences", pystr "activities in", pystr "fun in",
    pystr "something to do" ]

/-- Does any word of `ws` occur as a substring of `q`?
(`any(w in q for w in ws)`.) -/
def anyIn (ws : List Str) (q : Str) : Bool := ws.any (fun w => pyIn w q)

/-- Is the code point an ASCII letter?  (The `[a-zA-Z]` class of the entity
regex; the sources' queries and data are ASCII.) -/
def isAlphaCp (n : Nat) : Bool := (65 ≤ n && n ≤ 90) || (97 ≤ n && n ≤ 122)

/-- Is the code point a regex word character (`[a-zA-Z0-9_]`, ASCII)? -/
def isWordCp (n : Nat) : Bool := isAlphaCp n || (48 ≤ n && n ≤ 57) || n == 95

/-- `re.findall(r"\b[a-zA-Z]{3,}\b", q)` over ASCII text: the maximal
word-character runs made solely of letters, of length at least 3. -/
def wordTokens3 (q : Str) : List Str :=
  (splitP isWordCp q).filter (fun t => t.all isAlphaCp && decide (3 ≤ t.length))

example : wordTokens3 (pystr "tell me about hotel vaishali!") =
    [pystr "tell", pystr "about", pystr "hotel", pystr "vaishali"] := by decide

/-- The action-detection cascade of `detect_intent` (intent_service.py),
applied to the lower-cased query: the `"search"` default, overridden by
the `list` / `detail` / `general` rules, first match winning. -/
def intentAction (q : Str) : Str :=
  if anyIn [pystr "show", pystr "list", pystr "find", pystr "search"] q then pystr "list"
  else if anyIn [pystr "tell", pystr "about", pystr "details"] q then pystr "detail"
  else if anyIn [pystr "who are you", pystr "what can you do", pystr "about yourself",
      pystr "hey", pystr "hi"] q then pystr "general"
  else pystr "search"

/-- `detect_intent` (intent_service.py). -/
def detect_intent (query : Str) : Intent :=
  let q := pyLower query
  let action := intentAction q
  let search_domain :=
    match resolve_query_to_category query with
    | some resolved => some resolved
    | none => (DOMAIN_KEYWORDS.find? (fun p => anyIn p.2 q)).map (fun p => p.1)
  let attributes := (ATTRIBUTE_KEYWORDS.filter (fun p => anyIn p.2 q)).map (fun p => p.1)
  let must_have :=
    (if pyIn (pystr "pool") q then [pystr "pool"] else []) ++
    (if pyIn (pystr "family") q then [pystr "family"] else []) ++
    (if pyIn (pystr "couple") q then [pystr "couple"] else []) ++
    (if pyIn (pystr "luxury") q then [pystr "luxury"] else []) ++
    (if pyIn (pystr "budget") q || pyIn (pystr "cheap") q then [pystr "budget"] else [])
  let entity_tokens := (wordTokens3 q).filter (fun t => !(STOPWORDS.contains t))
  let entity := if entity_tokens.isEmpty then none
    else some (pyJoin (pystr " ") entity_tokens)
  let exploratory := anyIn EXPLORATORY_PHRASES q
  let entity_val := entity.getD []
  let entity_lower := pyStrip (pyLower entity_val)
  let entity_words := (pySplit entity_lower).dedup
  let is_pure_category :=
    (decide (entity_words.length = 1) && PURE_CATEGORY_WORDS.contains entity_lower) ||
    (!entity_words.isEmpty && entity_words.all (fun w => PURE_CATEGORY_WORDS.contains w))
  if action == pystr "detail" && !entity_val.isEmpty && !is_pure_category then
    { raw_query := query, action, search_domain, attributes, must_have, entity, exploratory,
      itype := some (pystr "entity_lookup"), entity_name := some (pyStrip entity_val),
      keywords := [] }
  else
    { raw_query := query, action, search_domain, attributes, must_have, entity, exploratory,
      itype := none, entity_name := none, keywords := [] }

/-- `extract_intent` (intent_service.py): backward-compatibility alias. -/
def extract_intent (query : Str) : Intent := detect_intent query

/-- `detect_attribute` (intent_service.py): first detected attribute. -/
def detect_attribute (query : Str) : Option Str := (detect_intent query).attributes.head?

example : (detect_intent (pystr "tell me about hotel vaishali")).itype
    = some (pystr "entity_lookup") := by decide
example : (detect_intent (pystr "hotel vaishali rating")).action = pystr "search" := by decide
example : (detect_intent (pystr "budget hotels")).must_have = [pystr "budget"] := by decide
example : (detect_intent (pystr "budget hotels")).search_domain = some (pystr "hotel") := by
  decide

/-! ## services/rag_service.py -/

/-- `ALLOWED_EXPLORATORY` (rag_service.py).  The source defines this set
with the comment "Exploratory: only these categories. Never hotel,
hospital, office, resort, villa." — but no code in the repository ever
consults it. -/
def ALLOWED_EXPLORATORY : List Str :=
  [ pystr "museum", pystr "theater", pystr "treks", pystr "picnic", pystr "events",
    pystr "adventure", pystr "wildlife", pystr "restaurant", pystr "shopping",
    pystr "wine" ]

/-- The rule cascade of `normalize_category` (rag_service.py) over the
already lower-cased, stripped raw category `c`. -/
def normalize_category_core (c : Str) : Str :=
  if pyIn (pystr "hotel") c then pystr "hotel"
    else if pyIn (pystr "resort") c then pystr "resort"
    else if pyIn (pystr "villa") c then pystr "villa"
    else if pyIn (pystr "restaurant") c || pyIn (pystr "cafe") c then pystr "restaurant"
    else if pyIn (pystr "medical") c || pyIn (pystr "hospital") c then pystr "hospital"
    else if pyIn (pystr "office") c then pystr "office"
    else if pyIn (pystr "theater") c then pystr "theater"
    else if pyIn (pystr "museum") c then pystr "museum"
    else if pyIn (pystr "religious") c || pyIn (pystr "mandir") c ||
        pyIn (pystr "temple") c || pyIn (pystr "ashram") c then pystr "religious"
    else if pyIn (pystr "trek") c then pystr "treks"
    else if pyIn (pystr "adventure") c || pyIn (pystr "one-day") c then pystr "adventure"
    else if pyIn (pystr "wildlife") c || pyIn (pystr "nature") c then pystr "wildlife"
    else if pyIn (pystr "picnic") c then pystr "picnic"
    else if pyIn (pystr "wine") c then pystr "wine"
    else if pyIn (pystr "shopping") c then pystr "shopping"
    else c

/-- `normalize_category` (rag_service.py): the RAG-side category
canonicalizer. -/
def normalize_category (raw_category : Str) : Str :=
  if raw_category = [] then []
  else normalize_category_core (pyStrip (pyLower raw_category))

/-- `_matches_intent_category` (rag_service.py): exploratory mode keeps any
item with a non-empty normalized category; strict mode rejects an item
whose category differs from a non-empty search domain. -/
def matches_intent_category (item : Item) (intent : Intent) : Bool :=
  let item_category := pyStrip item.normalized_category
  if intent.exploratory then !item_category.isEmpty
  else
    let intent_category := pyStrip (pyLower (intent.search_domain.getD []))
    if !intent_category.isEmpty && !(item_category == intent_category) then false
    else true

/-- The inline category-filter block shared by `get_rag_context` and
`get_rag_items` (rag_service.py lines 149–154 / 176–181). -/
def domainFilter (items : List Item) (intent : Intent) : List Item :=
  if intent.exploratory then
    items.filter (fun i => !(pyStrip i.normalized_category).isEmpty)
  else
    let intent_category := pyStrip (pyLower (intent.search_domain.getD []))
    if intent_category ≠ [] then
      items.filter (fun i => pyStrip i.normalized_category == intent_category)
    else items

/-- `_format_item` (rag_service.py): one fixed-field context block. -/
def format_item (item : Item) (index : Nat) : Str :=
  let name := pyOr item.vendor_name (pyOr item.name (pystr "Unknown"))
  let category := pyOr item.category item.type_field
  let area := pyOr item.area_name (pyOr item.zone_name item.area)
  let rating := pyOr item.rating item.star_rating
  let address := pyOr item.address (pyOr item.location item.area_name)
  let desc0 := pyOr item.short_description item.description
  let desc := if desc0 ≠ [] ∧ 200 < desc0.length
    then rstrip (desc0.take 200) ++ pystr "..." else desc0
  pystr "[" ++ natToStr index ++ pystr "]\n" ++
  pystr "Name: " ++ name ++ pystr "\n" ++
  pystr "Category: " ++ category ++ pystr "\n" ++
  pystr "Area: " ++ area ++ pystr "\n" ++
  pystr "Rating: " ++ rating ++ pystr "\n" ++
  pystr "Address: " ++ address ++ pystr "\n" ++
  pystr "Description: " ++ desc ++ pystr "\n" ++
  pystr "----"

/-- `MAX_RESULTS` (rag_service.py). -/
def MAX_RESULTS : Nat := 8

/-- `get_rag_context` (rag_service.py) applied to the raw item slice the
Catalog Search Provider returned (`search_api` is its ranking tail,
`search_rank`; the provider call itself is external). -/
def get_rag_context (rawItems : List Item) (intent : Intent) : Str :=
  let items := search_rank rawItems intent 30
  if items = [] then []
  else
    let items := domainFilter items intent
    if items = [] then []
    else
      let filtered := items.filter (fun i => matches_intent_category i intent)
      if filtered = [] then []
      else
        let selected := filtered.take MAX_RESULTS
        pyStrip (pyJoin (pystr "\n")
          (selected.mapIdx (fun idx item => format_item item (idx + 1))))

/-- `get_rag_items` (rag_service.py) applied to the raw item slice. -/
def get_rag_items (rawItems : List Item) (intent : Intent) : List Item :=
  let items := search_rank rawItems intent 30
  let items := domainFilter items intent
  items.filter (fun i => matches_intent_category i intent)

/-! ## services/llm_service.py -/

/-- The fixed no-data sentinel of `answer_with_ai` (llm_service.py). -/
def NO_DATA_SENTINEL : Str := pystr "No matching data found in our listings."

/-- `answer_with_ai` (llm_service.py).  The Groq completion call is the
external Responder collaborator, passed in as the oracle `llm`; the second
component of the result records whether the completion was invoked.
`memory` is accepted (as in the source) and never read. -/
def answer_with_ai (llm : Str → Str → Str) (query context : Str)
    (_intent : Intent) (_memory : Str) : Str × Bool :=
  if context = [] || pyStrip context = [] then (NO_DATA_SENTINEL, false)
  else (pyStrip (llm query context), true)

/-! ## main.py -/

/-- `CONVERSATIONAL_KEYWORDS` (main.py `/ask`). -/
def CONVERSATIONAL_KEYWORDS : List Str :=
  [ pystr "hi", pystr "hello", pystr "hey", pystr "good morning", pystr "good evening",
    pystr "good afternoon", pystr "what can you help me with", pystr "what can you do",
    pystr "how can you help me", pystr "what do you do" ]

/-- `DOMAIN_KEYWORDS` of the conversational short-circuit (main.py `/ask`). -/
def DOMAIN_KEYWORDS_MAIN : List Str :=
  [ pystr "hotel", pystr "hotels", pystr "stay", pystr "resort", pystr "villa",
    pystr "price", pystr "budget", pystr "luxury", pystr "rating", pystr "address",
    pystr "amenities", pystr "location", pystr "near", pystr "in" ]

/-- The `is_conversational` test of the `/ask` handler (main.py). -/
def isConversational (query : Str) : Bool :=
  let q_lower := pyStrip (pyLower query)
  anyIn CONVERSATIONAL_KEYWORDS q_lower &&
  !(anyIn DOMAIN_KEYWORDS_MAIN q_lower) &&
  decide ((pySplit q_lower).length ≤ 8)

/-- The fixed greeting of the conversational short-circuit (main.py). -/
def GREETING : Str :=
  pystr "Hey! 👋 I\x27m Anvi, I can help you with hotel searches, place details, and travel-related questions based on our available data.\n\nJust tell me what you\x27re looking for 🙂"

/-- A value stored in the intent dictionary (the exact payloads are
irrelevant to the verified properties; only the key set matters). -/
inductive PyVal where
  | str (s : Str)
  | ostr (o : Option Str)
  | strlist (l : List Str)
  | bool (b : Bool)
  deriving DecidableEq, Repr

/-- Python `dict` lookup `d[k]`, `none` meaning `KeyError`. -/
def pyLookup (d : List (Str × PyVal)) (k : Str) : Option PyVal :=
  match d with
  | [] => none
  | (k', v) :: rest => if k' = k then some v else pyLookup rest k

/-- The key/value list of the Python dictionary `detect_intent` returns:
`raw_query`, `action`, `search_domain`, `attributes`, `must_have`,
`entity`, `exploratory`, plus `type` and `entity_name` exactly when the
entity-lookup classification fired.  There is no `"category"` key. -/
def intentDict (i : Intent) : List (Str × PyVal) :=
  [ (pystr "raw_query", .str i.raw_query)
  , (pystr "action", .str i.action)
  , (pystr "search_domain", .ostr i.search_domain)
  , (pystr "attributes", .strlist i.attributes)
  , (pystr "must_have", .strlist i.must_have)
  , (pystr "entity", .ostr i.entity)
  , (pystr "exploratory", .bool i.exploratory) ] ++
  (match i.itype, i.entity_name with
   | some t, some e => [(pystr "type", .str t), (pystr "entity_name", .str e)]
   | _, _ => [])

/-- Outcome of one `/ask` request: a JSON answer with cards, or an
`HTTPException` with status and detail. -/
inductive AskResult where
  | ok (answer : Str) (cards : List Entity)
  | httpError (status : Nat) (detail : Str)
  deriving DecidableEq, Repr

/-- The `/ask` handler (main.py) from authentication up to the
`intent["category"]` access.  The persistent-memory writes are external
side effects with no influence on the response.  `rest` is the remainder
of the handler (entity bypass, override, RAG, LLM, cards), abstracted as a
continuation receiving the value bound to `category_keyword`: the
theorems below show control never reaches it.  A `KeyError` propagates to
the handler's `except Exception` arm, which re-raises HTTP 500
"Internal Server Error". -/
def ask_ai (rest : PyVal → AskResult) (authorization : Option Str)
    (rawQuery : Str) : AskResult :=
  match authorization with
  | none => .httpError 401 (pystr "Unauthorized")
  | some auth =>
    if !strStarts (pystr "Bearer ") auth then .httpError 401 (pystr "Unauthorized")
    else
      let token := pyStrip (auth.drop 7)
      if token = [] then .httpError 401 (pystr "Unauthorized")
      else
        let query := pyStrip rawQuery
        if query = [] then .httpError 400 (pystr "Query is required")
        else if isConversational query then .ok GREETING []
        else
          let intent := detect_intent query
          match pyLookup (intentDict intent) (pystr "category") with
          | none => .httpError 500 (pystr "Internal Server Error")
          | some category_keyword => rest category_keyword

/-! ## Conversational short-circuit layer: follow-up substitution.

The single-word follow-up substitution belongs to the short-circuit layer
the specification places in the endpoint wiring; it appears in none of the
files under version control here (only this iteration of `main.py` is),
so it is modelled from the specification. -/

/-- A stored conversation turn (Memory Store collaborator). -/
inductive Role where
  | user
  | assistant
  deriving DecidableEq, Repr

/-- A stored message: author role and content. -/
structure Message where
  role : Role
  content : Str
  deriving DecidableEq, Repr

/-- Modelled from the spec: the follow-up word set of §4.6 ("Single-word
follow-up (`yes|more|continue`, exact match after trimming/lower-casing)"). -/
def FOLLOWUP_WORDS : List Str := [pystr "yes", pystr "more", pystr "continue"]

/-- Modelled from the spec: "the previous user message" — the most recent
user-authored turn among the stored prior messages (§4.6, §6). -/
def previous_user_message (history : List Message) : Option Str :=
  (history.reverse.find? (fun m => decide (m.role = Role.user))).map (fun m => m.content)

/-- Modelled from the spec: follow-up substitution (§4.6) — if the current
input, trimmed and lower-cased, is exactly one of the follow-up words,
substitute the previous user message as the effective query re-entering
the pipeline at intent extraction; otherwise the input itself is the
effective query. -/
def effective_query (history : List Message) (input : Str) : Str :=
  if FOLLOWUP_WORDS.contains (pyStrip (pyLower input)) then
    match previous_user_message history with
    | some m => m
    | none => input
  else input

end Anvi

namespace Anvi

/-! ## Supporting lemmas: substring containment -/

/-- `strStarts` as an existence statement. -/
theorem strStarts_iff_exists {p s : Str} :
    strStarts p s = true ↔ ∃ t, s = p ++ t := by
  induction p generalizing s with
  | nil => simp [strStarts]
  | cons a ps ih =>
    cases s with
    | nil => simp [strStarts]
    | cons b ss =>
      simp only [strStarts, Bool.and_eq_true, beq_iff_eq, ih, List.cons_append,
        List.cons.injEq]
      constructor
      · rintro ⟨rfl, t, rfl⟩; exact ⟨t, rfl, rfl⟩
      · rintro ⟨t, rfl, rfl⟩; exact ⟨rfl, t, rfl⟩

/-- `pyIn` as an existence statement: `needle` occurs with some context on
both sides. -/
theorem pyIn_iff_exists {needle h : Str} :
    pyIn needle h = true ↔ ∃ p s, h = p ++ needle ++ s := by
  induction h with
  | nil =>
    simp only [pyIn, strStarts_iff_exists]
    constructor
    · rintro ⟨t, ht⟩
      obtain ⟨h1, h2⟩ := List.append_eq_nil.mp ht.symm
      exact ⟨[], [], by simp [h1, h2]⟩
    · rintro ⟨p, s, hps⟩
      obtain ⟨h1, h2⟩ := List.append_eq_nil.mp hps.symm
      obtain ⟨h3, h4⟩ := List.append_eq_nil.mp h1
      exact ⟨[], by simp [h4]⟩
  | cons c rest ih =>
    simp only [pyIn, Bool.or_eq_true, strStarts_iff_exists, ih]
    constructor
    · rintro (⟨t, ht⟩ | ⟨p, s, rfl⟩)
      · exact ⟨[], t, by simpa using ht⟩
      · exact ⟨c :: p, s, by simp⟩
    · rintro ⟨p, s, hps⟩
      cases p with
      | nil => exact Or.inl ⟨s, by simpa using hps⟩
      | cons x xs =>
        simp only [List.cons_append] at hps
        obtain ⟨h1, h2⟩ := List.cons_eq_cons.mp hps
        exact Or.inr ⟨xs, s, h2⟩

/-- Containment of a left factor: if `a ++ b` occurs in `c`, so does `a`. -/
theorem pyIn_of_append {a b c : Str} (h : pyIn (a ++ b) c = true) :
    pyIn a c = true := by
  rw [pyIn_iff_exists] at h ⊢
  obtain ⟨p, s, rfl⟩ := h
  exact ⟨p, b ++ s, by simp⟩

/-! ## Supporting lemmas: splitting, joining, stripping, lower-casing -/

/-- ASCII lower-casing is idempotent. -/
theorem lowerCp_idem (n : Nat) : lowerCp (lowerCp n) = lowerCp n := by
  unfold lowerCp
  by_cases h : 65 ≤ n ∧ n ≤ 90
  · rw [if_pos h, if_neg (by omega)]
  · rw [if_neg h, if_neg h]

/-- `splitP` on the empty string. -/
theorem splitP_nil (keep : Nat → Bool) : splitP keep [] = [] := rfl

/-- `splitP` drops a rejected head. -/
theorem splitP_cons_drop {keep : Nat → Bool} {c : Nat} {cs : Str}
    (hc : keep c = false) : splitP keep (c :: cs) = splitP keep cs := by
  rw [splitP.eq_def]; simp [hc]

/-- `splitP` on a single kept code point. -/
theorem splitP_single {keep : Nat → Bool} {c : Nat} (hc : keep c = true) :
    splitP keep [c] = [[c]] := by
  rw [splitP]; simp [hc]

/-- `splitP` closes the current run at a rejected successor. -/
theorem splitP_cons_break {keep : Nat → Bool} {c d : Nat} {ds : Str}
    (hc : keep c = true) (hd : keep d = false) :
    splitP keep (c :: d :: ds) = [c] :: splitP keep (d :: ds) := by
  rw [splitP]; simp [hc, hd]

/-- `splitP` extends the run when the successor is kept (non-empty tail
split). -/
theorem splitP_cons_glue {keep : Nat → Bool} {c d : Nat} {ds : Str}
    {t : Str} {ts : List Str} (hc : keep c = true) (hd : keep d = true)
    (hsp : splitP keep (d :: ds) = t :: ts) :
    splitP keep (c :: d :: ds) = (c :: t) :: ts := by
  rw [splitP, hsp]; simp [hc, hd]

/-- `splitP` extends the run when the successor is kept (empty tail split —
in fact unreachable). -/
theorem splitP_cons_glue_nil {keep : Nat → Bool} {c d : Nat} {ds : Str}
    (hc : keep c = true) (hd : keep d = true)
    (hsp : splitP keep (d :: ds) = []) :
    splitP keep (c :: d :: ds) = [[c]] := by
  rw [splitP, hsp]; simp [hc, hd]

/-- Every piece produced by `splitP` is non-empty, consists of kept code
points, and draws its code points from the input. -/
theorem splitP_sound (keep : Nat → Bool) :
    ∀ (l : Str) (t : Str), t ∈ splitP keep l →
      t ≠ [] ∧ (∀ c ∈ t, keep c = true) ∧ (∀ c ∈ t, c ∈ l) := by
  intro l
  induction l with
  | nil =>
    intro t ht
    rw [splitP_nil] at ht
    exact absurd ht (List.not_mem_nil t)
  | cons c cs ih =>
    intro t ht
    by_cases hc : keep c = true
    · cases cs with
      | nil =>
        rw [splitP_single hc] at ht
        simp only [List.mem_singleton] at ht
        subst ht
        refine ⟨by simp, ?_, ?_⟩ <;> intro x hx <;> simp only [List.mem_singleton] at hx <;>
          simp [hx, hc]
      | cons d ds =>
        by_cases hd : keep d = true
        · rcases hsp : splitP keep (d :: ds) with _ | ⟨t0, ts0⟩
          · rw [splitP_cons_glue_nil hc hd hsp] at ht
            simp only [List.mem_singleton] at ht
            subst ht
            refine ⟨by simp, ?_, ?_⟩ <;> intro x hx <;> simp only [List.mem_singleton] at hx <;>
              simp [hx, hc]
          · rw [splitP_cons_glue hc hd hsp] at ht
            rcases List.mem_cons.mp ht with rfl | hmem
            · have h0 := ih t0 (by rw [hsp]; exact List.mem_cons_self _ _)
              refine ⟨by simp, ?_, ?_⟩
              · intro x hx
                rcases List.mem_cons.mp hx with rfl | hx'
                · exact hc
                · exact h0.2.1 x hx'
              · intro x hx
                rcases List.mem_cons.mp hx with rfl | hx'
                · exact List.mem_cons_self _ _
                · exact List.mem_cons_of_mem _ (h0.2.2 x hx')
            · have h0 := ih t (by rw [hsp]; exact List.mem_cons_of_mem _ hmem)
              exact ⟨h0.1, h0.2.1, fun x hx => List.mem_cons_of_mem _ (h0.2.2 x hx)⟩
        · have hd' : keep d = false := by simpa using hd
          rw [splitP_cons_break hc hd'] at ht
          rcases List.mem_cons.mp ht with rfl | hmem
          · refine ⟨by simp, ?_, ?_⟩ <;> intro x hx <;> simp only [List.mem_singleton] at hx <;>
              simp [hx, hc]
          · have h0 := ih t hmem
            exact ⟨h0.1, h0.2.1, fun x hx => List.mem_cons_of_mem _ (h0.2.2 x hx)⟩
    · have hc' : keep c = false := by simpa using hc
      rw [splitP_cons_drop hc'] at ht
      have h0 := ih t ht
      exact ⟨h0.1, h0.2.1, fun x hx => List.mem_cons_of_mem _ (h0.2.2 x hx)⟩

/-- Splitting a kept-token prefix off: if `tok` is a non-empty all-kept run
and `rest` is empty or starts with a dropped code point, `splitP` emits
`tok` and continues on `rest`. -/
theorem splitP_token_append (keep : Nat → Bool) :
    ∀ (tok rest : Str), tok ≠ [] → (∀ c ∈ tok, keep c = true) →
      (rest = [] ∨ ∃ d ds, rest = d :: ds ∧ keep d = false) →
      splitP keep (tok ++ rest) = tok :: splitP keep rest := by
  intro tok
  induction tok with
  | nil => intro rest h1; exact absurd rfl h1
  | cons c tok' ih =>
    intro rest _ h2 h3
    have hc : keep c = true := h2 c (List.mem_cons_self _ _)
    cases tok' with
    | nil =>
      rcases h3 with rfl | ⟨d, ds, rfl, hd⟩
      · simp [splitP_single hc, splitP_nil]
      · simp [splitP_cons_break hc hd]
    | cons c2 tok'' =>
      have hc2 : keep c2 = true := h2 c2 (List.mem_cons_of_mem _ (List.mem_cons_self _ _))
      have hih := ih rest (by simp) (fun x hx => h2 x (List.mem_cons_of_mem _ hx)) h3
      have hih' : splitP keep (c2 :: (tok'' ++ rest)) = (c2 :: tok'') :: splitP keep rest := by
        simpa using hih
      calc splitP keep (c :: c2 :: tok'' ++ rest)
          = splitP keep (c :: c2 :: (tok'' ++ rest)) := by simp
        _ = (c :: c2 :: tok'') :: splitP keep rest := splitP_cons_glue hc hc2 hih'

/-- Round trip: splitting a single-separator join of non-empty all-kept
tokens recovers the tokens (the separator is dropped). -/
theorem splitP_pyJoin (keep : Nat → Bool) (e : Nat) (he : keep e = false) :
    ∀ (ts : List Str), (∀ t ∈ ts, t ≠ [] ∧ ∀ c ∈ t, keep c = true) →
      splitP keep (pyJoin [e] ts) = ts := by
  intro ts
  induction ts with
  | nil => intro _; simp [pyJoin, splitP]
  | cons t ts' ih =>
    intro h
    have ht := h t (List.mem_cons_self _ _)
    cases ts' with
    | nil =>
      have := splitP_token_append keep t [] ht.1 ht.2 (Or.inl rfl)
      simpa [pyJoin, splitP] using this
    | cons u ts'' =>
      have hrest : pyJoin [e] (t :: u :: ts'') = t ++ (e :: pyJoin [e] (u :: ts'')) := by
        simp [pyJoin]
      rw [hrest]
      rw [splitP_token_append keep t (e :: pyJoin [e] (u :: ts'')) ht.1 ht.2
        (Or.inr ⟨e, pyJoin [e] (u :: ts''), rfl, he⟩)]
      have hskip : splitP keep (e :: pyJoin [e] (u :: ts'')) =
          splitP keep (pyJoin [e] (u :: ts'')) := by
        simp [splitP, he]
      rw [hskip, ih (fun x hx => h x (List.mem_cons_of_mem _ hx))]

/-- Code points of a join come from the tokens or the separator. -/
theorem mem_pyJoin {c : Nat} {sep : Str} :
    ∀ {ts : List Str}, c ∈ pyJoin sep ts → (∃ t ∈ ts, c ∈ t) ∨ c ∈ sep := by
  intro ts
  induction ts with
  | nil => intro h; simp [pyJoin] at h
  | cons t ts' ih =>
    intro h
    cases ts' with
    | nil => exact Or.inl ⟨t, List.mem_cons_self _ _, by simpa [pyJoin] using h⟩
    | cons u ts'' =>
      simp only [pyJoin, List.append_assoc, List.mem_append] at h
      rcases h with ht | hsep | hrest
      · exact Or.inl ⟨t, List.mem_cons_self _ _, ht⟩
      · exact Or.inr hsep
      · rcases ih hrest with ⟨t', ht', hc⟩ | hs
        · exact Or.inl ⟨t', List.mem_cons_of_mem _ ht', hc⟩
        · exact Or.inr hs

/-- Code points survive `pyStrip` into the original string. -/
theorem mem_of_mem_pyStrip {c : Nat} {s : Str} (h : c ∈ pyStrip s) : c ∈ s := by
  have h1 : c ∈ lstrip s := by
    have := (List.dropWhile_sublist (l := (lstrip s).reverse) (p := isSpaceCp)).subset
    have h2 : c ∈ (lstrip s).reverse := by
      rw [pyStrip, rstrip] at h
      exact this (List.mem_reverse.mp h)
    exact List.mem_reverse.mp h2
  exact (List.dropWhile_sublist (l := s) (p := isSpaceCp)).subset h1

/-- A string whose code points are all lower-case fixed points is fixed by
`pyLower`. -/
theorem pyLower_fixed {s : Str} (h : ∀ c ∈ s, lowerCp c = c) : pyLower s = s := by
  unfold pyLower
  conv_rhs => rw [← List.map_id s]
  exact List.map_congr_left h

/-- Stripping a string that starts and ends with non-whitespace is a no-op:
left edge. -/
theorem lstrip_no_op {c : Nat} {s : Str} (hc : isSpaceCp c = false) :
    lstrip (c :: s) = c :: s := by
  simp [lstrip, List.dropWhile_cons, hc]

/-- Stripping a string that starts and ends with non-whitespace is a no-op:
right edge. -/
theorem rstrip_no_op {e : Nat} {l : Str} (he : isSpaceCp e = false) :
    rstrip (l ++ [e]) = l ++ [e] := by
  simp [rstrip, List.dropWhile_cons, he]

/-- A join of non-empty whitespace-free tokens ends in a non-whitespace
code point. -/
theorem pyJoin_concat {ts : List Str}
    (h : ∀ t ∈ ts, t ≠ [] ∧ ∀ c ∈ t, isSpaceCp c = false) (hne : ts ≠ []) :
    ∃ l e, pyJoin (pystr " ") ts = l ++ [e] ∧ isSpaceCp e = false := by
  induction ts with
  | nil => exact absurd rfl hne
  | cons t ts' ih =>
    have ht := h t (List.mem_cons_self _ _)
    cases ts' with
    | nil =>
      obtain ⟨l, e, rfl⟩ := List.eq_nil_or_concat t |>.resolve_left ht.1
      exact ⟨l, e, by simp [pyJoin], ht.2 e (by simp)⟩
    | cons u ts'' =>
      obtain ⟨l, e, hje, he⟩ := ih (fun x hx => h x (List.mem_cons_of_mem _ hx)) (by simp)
      refine ⟨t ++ pystr " " ++ l, e, ?_, he⟩
      simp [pyJoin, hje]

/-- Stripping a join of non-empty whitespace-free tokens is a no-op. -/
theorem pyStrip_pyJoin {ts : List Str}
    (h : ∀ t ∈ ts, t ≠ [] ∧ ∀ c ∈ t, isSpaceCp c = false) :
    pyStrip (pyJoin (pystr " ") ts) = pyJoin (pystr " ") ts := by
  cases hts : ts with
  | nil => simp [pyJoin, pyStrip, lstrip, rstrip]
  | cons t ts' =>
    subst hts
    have ht := h t (List.mem_cons_self _ _)
    obtain ⟨c, t', rfl⟩ := List.exists_cons_of_ne_nil ht.1
    have hc : isSpaceCp c = false := ht.2 c (List.mem_cons_self _ _)
    have hhead : ∃ s, pyJoin (pystr " ") ((c :: t') :: ts') = c :: s := by
      cases ts' with
      | nil => exact ⟨t', by simp [pyJoin]⟩
      | cons u ts'' => exact ⟨t' ++ pystr " " ++ pyJoin (pystr " ") (u :: ts''), by
          simp [pyJoin]⟩
    obtain ⟨s, hs⟩ := hhead
    obtain ⟨l, e, hje, he⟩ := pyJoin_concat h (by simp)
    rw [pyStrip, hs, lstrip_no_op hc, ← hs, hje, rstrip_no_op he]

/-- `pyLower` distributes over a space-join. -/
theorem pyLower_pyJoin (ts : List Str) :
    pyLower (pyJoin (pystr " ") ts) = pyJoin (pystr " ") (ts.map pyLower) := by
  induction ts with
  | nil => simp [pyJoin, pyLower]
  | cons t ts' ih =>
    cases ts' with
    | nil => simp [pyJoin]
    | cons u ts'' =>
      simp only [pyJoin, List.map_cons]
      rw [show pyLower (t ++ pystr " " ++ pyJoin (pystr " ") (u :: ts'')) =
        pyLower t ++ pyLower (pystr " ") ++ pyLower (pyJoin (pystr " ") (u :: ts'')) by
          simp [pyLower]]
      rw [ih]
      rfl

/-! ## C8: idempotence of name normalization -/

/-- The filtered token list of `normalize_name`. -/
def normTokens (name : Str) : List Str :=
  (pySplit (pyStrip (pyLower name))).filter
    (fun t => !(t == pystr "hotel") && !(t == pystr "the"))

/-- `normalize_name` restated through `normTokens`. -/
theorem normalize_name_eq (name : Str) :
    normalize_name name =
      if name = [] then [] else pyStrip (pyJoin (pystr " ") (normTokens name)) := rfl

/-- Every token of `normTokens`: non-empty, whitespace-free, fixed under
lower-casing, and distinct from the dropped stopwords. -/
theorem normTokens_good (name : Str) :
    ∀ t ∈ normTokens name, t ≠ [] ∧ (∀ c ∈ t, isSpaceCp c = false) ∧
      (∀ c ∈ t, lowerCp c = c) ∧
      (!(t == pystr "hotel") && !(t == pystr "the")) = true := by
  intro t ht
  have hmem := List.mem_of_mem_filter ht
  have hcond := List.of_mem_filter ht
  have hs := splitP_sound (fun c => !isSpaceCp c) (pyStrip (pyLower name)) t hmem
  refine ⟨hs.1, ?_, ?_, hcond⟩
  · intro c hc
    have := hs.2.1 c hc
    simpa using this
  · intro c hc
    have hcl : c ∈ pyLower name := mem_of_mem_pyStrip (hs.2.2 c hc)
    obtain ⟨a, _, rfl⟩ := List.mem_map.mp hcl
    exact lowerCp_idem a

/-- C8 — name normalization is idempotent:
`normalize_name (normalize_name s) = normalize_name s` for every string. -/
theorem C8_normalize_name_idem (s : Str) :
    normalize_name (normalize_name s) = normalize_name s := by
  by_cases hs : s = []
  · subst hs
    rfl
  · have hgood := normTokens_good s
    have hgood' : ∀ t ∈ normTokens s, t ≠ [] ∧ ∀ c ∈ t, isSpaceCp c = false :=
      fun t ht => ⟨(hgood t ht).1, (hgood t ht).2.1⟩
    have hr : normalize_name s = pyJoin (pystr " ") (normTokens s) := by
      rw [normalize_name_eq, if_neg hs]
      exact pyStrip_pyJoin hgood'
    by_cases hj : pyJoin (pystr " ") (normTokens s) = []
    · rw [hr, hj]
      rfl
    · rw [hr]
      rw [normalize_name_eq, if_neg hj]
      have hlow : pyLower (pyJoin (pystr " ") (normTokens s)) =
          pyJoin (pystr " ") (normTokens s) := by
        apply pyLower_fixed
        intro c hc
        rcases mem_pyJoin hc with ⟨t, ht, hct⟩ | hsep
        · exact (hgood t ht).2.2.1 c hct
        · have : c = 32 := by
            have : pystr " " = [32] := by decide
            rw [this] at hsep
            simpa using hsep
          subst this
          decide
      have hstrip : pyStrip (pyJoin (pystr " ") (normTokens s)) =
          pyJoin (pystr " ") (normTokens s) := pyStrip_pyJoin hgood'
      have hsplit : pySplit (pyJoin (pystr " ") (normTokens s)) = normTokens s := by
        have h32 : pystr " " = [32] := by decide
        rw [pySplit, h32]
        apply splitP_pyJoin (fun c => !isSpaceCp c) 32 (by decide)
        intro t ht
        refine ⟨(hgood' t ht).1, ?_⟩
        intro c hc
        simp [(hgood' t ht).2 c hc]
      have hfilter : (normTokens s).filter
          (fun t => !(t == pystr "hotel") && !(t == pystr "the")) = normTokens s :=
        List.filter_eq_self.mpr (fun t ht => (hgood t ht).2.2.2)
      have hnt : normTokens (pyJoin (pystr " ") (normTokens s)) = normTokens s := by
        rw [normTokens, hlow, hstrip, hsplit, hfilter]
      rw [hnt]
      exact pyStrip_pyJoin hgood'

/-! ## C9: the action enumeration of detect_intent -/

/-- C9 (counterexample to the claim as stated): on the query `"show"`,
`detect_intent` sets `action` to `"list"`, which is none of the three
claimed enum values `search`, `detail`, `general`. -/
theorem C9_cex :
    (detect_intent (pystr "show")).action = pystr "list" ∧
    (detect_intent (pystr "show")).action ≠ pystr "search" ∧
    (detect_intent (pystr "show")).action ≠ pystr "detail" ∧
    (detect_intent (pystr "show")).action ≠ pystr "general" := by
  decide

/-- C9 (amended): for every query, the `action` field of the intent
returned by `detect_intent` is one of the four values `"search"`,
`"list"`, `"detail"`, `"general"`. -/
theorem C9_action_enum (q : Str) :
    (detect_intent q).action = pystr "search" ∨ (detect_intent q).action = pystr "list" ∨
    (detect_intent q).action = pystr "detail" ∨ (detect_intent q).action = pystr "general" := by
  have hact : (detect_intent q).action = intentAction (pyLower q) := by
    unfold detect_intent
    dsimp only
    split <;> split <;> rfl
  rw [hact]
  unfold intentAction
  split
  · simp
  · split
    · simp
    · split <;> simp

/-! ## C10: the two category canonicalizers -/

/-- C10 (counterexample to the claim as stated): the raw category
`"theatre"` is canonicalized to `"theater"` by `canonical_category`
(data_service) but passed through unchanged by `normalize_category`
(rag_service), whose theater rule only checks the spelling "theater". -/
theorem C10_cex :
    normalize_category (pystr "theatre") = pystr "theatre" ∧
    canonical_category (pystr "theatre") = pystr "theater" ∧
    normalize_category (pystr "theatre") ≠ canonical_category (pystr "theatre") := by
  decide

/-- On inputs where an occurrence of "theatre" forces an occurrence of
"theater", the two rule cascades coincide. -/
theorem catCore_agree (c : Str)
    (h : pyIn (pystr "theatre") c = true → pyIn (pystr "theater") c = true) :
    normalize_category_core c = canonical_category_core c := by
  have hth : (pyIn (pystr "theater") c || pyIn (pystr "theatre") c ||
      pyIn (pystr "theaters") c || pyIn (pystr "theatres") c) = pyIn (pystr "theater") c := by
    cases h1 : pyIn (pystr "theater") c
    · have h2 : pyIn (pystr "theatre") c = false := by
        cases h2 : pyIn (pystr "theatre") c
        · rfl
        · exact absurd (h h2) (by simp [h1])
      have h3 : pyIn (pystr "theaters") c = false := by
        cases h3 : pyIn (pystr "theaters") c
        · rfl
        · have he : pystr "theaters" = pystr "theater" ++ [115] := by decide
          rw [he] at h3
          exact absurd (pyIn_of_append h3) (by simp [h1])
      have h4 : pyIn (pystr "theatres") c = false := by
        cases h4 : pyIn (pystr "theatres") c
        · rfl
        · have he : pystr "theatres" = pystr "theatre" ++ [115] := by decide
          rw [he] at h4
          exact absurd (h (pyIn_of_append h4)) (by simp [h1])
      simp [h1, h2, h3, h4]
    · simp [h1]
  have hrel : (pyIn (pystr "religious") c || pyIn (pystr "temple") c ||
      pyIn (pystr "mandir") c || pyIn (pystr "ashram") c) =
      (pyIn (pystr "religious") c || pyIn (pystr "mandir") c ||
      pyIn (pystr "temple") c || pyIn (pystr "ashram") c) := by
    cases h5 : pyIn (pystr "temple") c <;> cases h6 : pyIn (pystr "mandir") c <;> simp
  unfold normalize_category_core canonical_category_core
  rw [hth, hrel]

/-- C10 (amended): `normalize_category` (rag_service) and
`canonical_category` (data_service) agree on every raw category string
whose lower-cased, stripped form does not contain "theatre" without also
containing "theater" — the only divergence the "theatre" spelling rule
present solely in `canonical_category` can produce. -/
theorem C10_agree_outside_theatre (raw : Str)
    (h : pyIn (pystr "theatre") (pyStrip (pyLower raw)) = true →
      pyIn (pystr "theater") (pyStrip (pyLower raw)) = true) :
    normalize_category raw = canonical_category raw := by
  unfold normalize_category canonical_category
  by_cases hr : raw = []
  · simp [hr]
  · simp only [if_neg hr]
    exact catCore_agree _ h

/-- C10 witness: the amended agreement applied at the concrete raw
category `"Movie Theaters"`. -/
theorem C10_witness :
    normalize_category (pystr "Movie Theaters") = canonical_category (pystr "Movie Theaters") :=
  C10_agree_outside_theatre (pystr "Movie Theaters") (by decide)

/-! ## C1: the `/ask` handler always fails at `intent["category"]` -/

/-- The dictionary produced by `detect_intent` carries no `"category"` key,
whatever the intent is. -/
theorem intentDict_no_category (i : Intent) :
    pyLookup (intentDict i) (pystr "category") = none := by
  obtain ⟨rq, ac, sd, at_, mh, en, ex, it, enm, kw⟩ := i
  cases it <;> cases enm <;> rfl

/-- C1 — for every request that passes authentication with a non-empty
query and does not hit the conversational short-circuit, the `/ask`
handler's `intent["category"]` access raises (the intent dictionary has no
such key), so the handler answers with the generic internal error —
whatever the remainder `rest` of the pipeline would have computed. -/
theorem C1_ask_always_internal_error (rest : PyVal → AskResult) (auth rawQuery : Str)
    (hb : strStarts (pystr "Bearer ") auth = true)
    (ht : pyStrip (auth.drop 7) ≠ [])
    (hq : pyStrip rawQuery ≠ [])
    (hc : isConversational (pyStrip rawQuery) = false) :
    ask_ai rest (some auth) rawQuery = .httpError 500 (pystr "Internal Server Error") := by
  unfold ask_ai
  dsimp only
  rw [hb]
  simp only [Bool.not_true, Bool.false_eq_true, if_false]
  rw [if_neg ht, if_neg hq, hc]
  simp only [Bool.false_eq_true, if_false]
  rw [intentDict_no_category]

/-- C1 witness: the crash theorem applied to the concrete authorized
request `"wine tasting"`. -/
theorem C1_witness :
    ask_ai (fun _ => .ok [] []) (some (pystr "Bearer user-7")) (pystr "wine tasting")
      = .httpError 500 (pystr "Internal Server Error") :=
  C1_ask_always_internal_error (fun _ => .ok [] []) (pystr "Bearer user-7")
    (pystr "wine tasting") (by decide) (by decide) (by decide) (by decide)

/-! ## C2: the "hotel vaishali rating" scenario -/

/-- The catalog item of the C2 scenario: display name
`"Hotel Vaishali Nashik"`, numeric rating 4. -/
def vaishaliItem : Item :=
  { vendor_name := pystr "Hotel Vaishali Nashik"
    name := pystr "Hotel Vaishali Nashik"
    category := pystr "Hotels"
    star_rating := pystr "4" }

/-- C2 (the code diverges from the scenario): the authorized query
`"hotel vaishali rating"` never reaches entity resolution or the attribute
formatter — the handler fails at `intent["category"]` and returns the
generic 500 error, not the claimed rating answer, regardless of the
catalog and of the rest of the pipeline.  (The scenario's catalog item
`vaishaliItem` would resolve: `resolve_entity` finds it by exact
normalized match — making the divergence one of the handler, not of the
resolver.) -/
theorem C2_scenario_internal_error :
    (∀ rest : PyVal → AskResult,
      ask_ai rest (some (pystr "Bearer user-1")) (pystr "hotel vaishali rating")
        = .httpError 500 (pystr "Internal Server Error")) ∧
    resolve_entity (pystr "hotel vaishali") [vaishaliItem]
      = some (normalize_hotel_entity vaishaliItem) :=
  ⟨fun _ => rfl, by decide⟩

/-! ## C3: exploratory filtering keeps hotels -/

/-- The exploratory intent of the C3 run: `"things to do in nashik"`. -/
def c3Intent : Intent := detect_intent (pystr "things to do in nashik")

/-- A catalog item whose raw category canonicalizes to `hotel`. -/
def c3HotelItem : Item :=
  { vendor_name := pystr "Grand Stay", category := pystr "Hotels" }

/-- C3 (the code contradicts the claim and its own comment): on an
exploratory intent, the RAG filter keeps the item canonicalized as
`hotel` — the only exploratory condition applied is a non-empty
`normalized_category`; the `ALLOWED_EXPLORATORY` set (whose source comment
promises "Never hotel, hospital, office, resort, villa") is never
consulted, and `hotel` is indeed outside it. -/
theorem C3_exploratory_keeps_hotel :
    c3Intent.exploratory = true ∧
    ALLOWED_EXPLORATORY.contains (pystr "hotel") = false ∧
    (get_rag_items [c3HotelItem] c3Intent).map (fun i => i.normalized_category)
      = [pystr "hotel"] := by
  refine ⟨by decide, by decide, by decide⟩

/-! ## C6: follow-up substitution -/

/-- C6 — with stored prior turns `["budget hotels", "<assistant reply>"]`
and current input `"yes"`, the effective query re-entering the pipeline at
intent extraction is the previous user message `"budget hotels"`. -/
theorem C6_followup_substitution :
    effective_query
      [⟨Role.user, pystr "budget hotels"⟩, ⟨Role.assistant, pystr "<assistant reply>"⟩]
      (pystr "yes") = pystr "budget hotels" ∧
    detect_intent (effective_query
      [⟨Role.user, pystr "budget hotels"⟩, ⟨Role.assistant, pystr "<assistant reply>"⟩]
      (pystr "yes")) = detect_intent (pystr "budget hotels") := by
  exact ⟨by decide, rfl⟩

/-! ## C4: the no-data short circuit -/

/-- C4 — whenever the domain-filtered catalog is empty (and in particular
when additionally `must_have` is non-empty), the RAG context is empty, so
`answer_with_ai` returns the fixed no-data sentinel and never invokes the
Responder (the completion flag is `false`), whatever the LLM oracle would
answer. -/
theorem C4_no_data_short_circuit (llm : Str → Str → Str) (query memory : Str)
    (rawItems : List Item) (intent : Intent)
    (_hm : intent.must_have ≠ [])
    (hf : domainFilter (search_rank rawItems intent 30) intent = []) :
    answer_with_ai llm query (get_rag_context rawItems intent) intent memory
      = (NO_DATA_SENTINEL, false) := by
  have hctx : get_rag_context rawItems intent = [] := by
    unfold get_rag_context
    dsimp only
    by_cases hi : search_rank rawItems intent 30 = []
    · rw [if_pos hi]
    · rw [if_neg hi, if_pos hf]
  rw [hctx]
  rfl

/-- C4 witness: the short circuit applied to the concrete query
`"budget hotels"` (which sets `must_have = ["budget"]`) over an empty
catalog slice. -/
theorem C4_witness :
    answer_with_ai (fun _ _ => []) (pystr "budget hotels")
      (get_rag_context [] (detect_intent (pystr "budget hotels")))
      (detect_intent (pystr "budget hotels")) []
      = (NO_DATA_SENTINEL, false) :=
  C4_no_data_short_circuit (fun _ _ => []) (pystr "budget hotels") []
    [] (detect_intent (pystr "budget hotels")) (by decide) (by decide)

/-! ## C5: the generic-name guard of pass 2 -/

/-- The C5 item: vendor field `"Sunset Stays"`, name field `"Villa"`. -/
def sunsetVillaItem : Item :=
  { vendor_name := pystr "Sunset Stays", name := pystr "Villa" }

/-- C5 (counterexample to the claim as stated): for the entity name
`"sunset"`, pass 1 finds nothing, and `resolve_entity` returns
`sunsetVillaItem` through pass 2 — matched through its vendor field — even
though the returned record's display name `"Villa"` normalizes to
`"villa"`, a member of the generic-name set. -/
theorem C5_cex :
    pass1 (normalize_name (pystr "sunset")) [sunsetVillaItem] = none ∧
    resolve_entity (pystr "sunset") [sunsetVillaItem]
      = some (normalize_hotel_entity sunsetVillaItem) ∧
    normalize_name (normalize_hotel_entity sunsetVillaItem).name = pystr "villa" ∧
    GENERIC_NAMES.contains (pystr "villa") = true := by
  decide

/-- Whatever pass 2 returns, it returned it because one of the two guarded
field tests succeeded. -/
theorem pass2_sound (entN : Str) :
    ∀ (items : List Item) (i : Item), pass2 entN items = some i →
      pass2Vendor entN i = true ∨ pass2Name entN i = true := by
  intro items
  induction items with
  | nil => intro i h; simp [pass2] at h
  | cons j rest ih =>
    intro i h
    rw [pass2] at h
    by_cases h1 : pass2Vendor entN j = true
    · rw [if_pos h1] at h
      obtain rfl := Option.some.inj h
      exact Or.inl h1
    · rw [if_neg h1] at h
      by_cases h2 : pass2Name entN j = true
      · rw [if_pos h2] at h
        obtain rfl := Option.some.inj h
        exact Or.inr h2
      · rw [if_neg h2] at h
        exact ih i h

/-- C5 (amended): a pass-2 (fuzzy) result of `resolve_entity` is always
matched through a field — vendor name or name — whose normalized value
lies outside the generic-name set and stands in bidirectional substring
containment with the normalized query; a field normalizing into the
generic set can produce a match only in pass 1.  (The returned record's
display name can still be generic when the match went through the other
field, as `C5_cex` shows.) -/
theorem C5_pass2_field_guard (en : Str) (items : List Item) (ent : Entity)
    (h1 : pass1 (normalize_name en) items = none)
    (h2 : resolve_entity en items = some ent) :
    ∃ i, pass2 (normalize_name en) items = some i ∧ ent = normalize_hotel_entity i ∧
      ((GENERIC_NAMES.contains (normalize_name i.vendor_name) = false ∧
        (pyIn (normalize_name en) (normalize_name i.vendor_name) ||
         pyIn (normalize_name i.vendor_name) (normalize_name en)) = true) ∨
       (GENERIC_NAMES.contains (normalize_name i.name) = false ∧
        (pyIn (normalize_name en) (normalize_name i.name) ||
         pyIn (normalize_name i.name) (normalize_name en)) = true)) := by
  unfold resolve_entity at h2
  by_cases hi : items = []
  · rw [if_pos hi] at h2
    simp at h2
  · rw [if_neg hi] at h2
    dsimp only at h2
    by_cases hn : normalize_name en = []
    · rw [if_pos hn] at h2
      simp at h2
    · rw [if_neg hn, h1] at h2
      obtain ⟨i, hpi, hent⟩ := Option.map_eq_some'.mp h2
      refine ⟨i, hpi, hent.symm, ?_⟩
      rcases pass2_sound _ items i hpi with hv | hnm
      · left
        simp only [pass2Vendor, Bool.and_eq_true, Bool.not_eq_true'] at hv
        exact ⟨hv.2.1.2, hv.2.2⟩
      · right
        simp only [pass2Name, Bool.and_eq_true, Bool.not_eq_true'] at hnm
        exact ⟨hnm.2.1.2, hnm.2.2⟩

/-- C5 witness: the amended guard theorem applied at the concrete query
`"sunset"` against the one-item catalog `[sunsetVillaItem]`. -/
theorem C5_witness :
    ∃ i, pass2 (normalize_name (pystr "sunset")) [sunsetVillaItem] = some i ∧
      normalize_hotel_entity sunsetVillaItem = normalize_hotel_entity i ∧
      ((GENERIC_NAMES.contains (normalize_name i.vendor_name) = false ∧
        (pyIn (normalize_name (pystr "sunset")) (normalize_name i.vendor_name) ||
         pyIn (normalize_name i.vendor_name) (normalize_name (pystr "sunset"))) = true) ∨
       (GENERIC_NAMES.contains (normalize_name i.name) = false ∧
        (pyIn (normalize_name (pystr "sunset")) (normalize_name i.name) ||
         pyIn (normalize_name i.name) (normalize_name (pystr "sunset"))) = true)) :=
  C5_pass2_field_guard (pystr "sunset") [sunsetVillaItem]
    (normalize_hotel_entity sunsetVillaItem) (by decide) (by decide)

/-! ## C7: scoring and ranking of the catalog search -/

/-- Membership in a stable descending insertion. -/
theorem mem_insertDescBy {key : α → Nat} {x b : α} :
    ∀ {l : List α}, b ∈ insertDescBy key x l ↔ b = x ∨ b ∈ l := by
  intro l
  induction l with
  | nil => simp [insertDescBy]
  | cons y ys ih =>
    rw [insertDescBy]
    by_cases hxy : key x < key y
    · rw [if_pos hxy]
      simp only [List.mem_cons, ih]
      tauto
    · rw [if_neg hxy]
      simp only [List.mem_cons]

/-- Inserting into a descending list keeps it descending. -/
theorem insertDescBy_pairwise (key : α → Nat) (x : α) (l : List α)
    (h : l.Pairwise (fun a b => key b ≤ key a)) :
    (insertDescBy key x l).Pairwise (fun a b => key b ≤ key a) := by
  induction l with
  | nil => simp [insertDescBy]
  | cons y ys ih =>
    rw [insertDescBy]
    obtain ⟨hy, hys⟩ := List.pairwise_cons.mp h
    by_cases hxy : key x < key y
    · rw [if_pos hxy]
      refine List.pairwise_cons.mpr ⟨?_, ih hys⟩
      intro b hb
      rcases mem_insertDescBy.mp hb with rfl | hb'
      · exact Nat.le_of_lt hxy
      · exact hy b hb'
    · rw [if_neg hxy]
      refine List.pairwise_cons.mpr ⟨?_, h⟩
      intro b hb
      rcases List.mem_cons.mp hb with rfl | hb'
      · exact Nat.le_of_not_lt hxy
      · exact Nat.le_trans (hy b hb') (Nat.le_of_not_lt hxy)

/-- The stable descending sort is descending by key. -/
theorem sortDescBy_pairwise (key : α → Nat) :
    ∀ l : List α, (sortDescBy key l).Pairwise (fun a b => key b ≤ key a) := by
  intro l
  induction l with
  | nil => simp [sortDescBy]
  | cons x xs ih => exact insertDescBy_pairwise key x (sortDescBy key xs) ih

/-- Stability of the insertion at each key level: inserting `x` does not
disturb the relative order of the elements sharing any key value — `x`
lands in front of the suffix holding its own level (elements skipped over
all have strictly larger keys). -/
theorem filter_insertDescBy (key : α → Nat) (x : α) (v : Nat) :
    ∀ l : List α,
      (insertDescBy key x l).filter (fun a => key a == v) =
        if key x = v then x :: l.filter (fun a => key a == v)
        else l.filter (fun a => key a == v) := by
  intro l
  induction l with
  | nil =>
    by_cases hxv : key x = v <;> simp [insertDescBy, List.filter_cons, hxv]
  | cons y ys ih =>
    rw [insertDescBy]
    by_cases hxy : key x < key y
    · rw [if_pos hxy]
      by_cases hyv : key y = v
      · have hxv : ¬key x = v := by omega
        simp [List.filter_cons, hyv, ih, hxv]
      · by_cases hxv : key x = v <;> simp [List.filter_cons, hyv, ih, hxv]
    · rw [if_neg hxy]
      by_cases hxv : key x = v <;> simp [List.filter_cons, hxv]

/-- Stability of the stable descending sort: at every key level, the
sorted list lists exactly the input's elements of that level, in input
order. -/
theorem filter_sortDescBy (key : α → Nat) (v : Nat) :
    ∀ l : List α,
      (sortDescBy key l).filter (fun a => key a == v) = l.filter (fun a => key a == v) := by
  intro l
  induction l with
  | nil => simp [sortDescBy]
  | cons x xs ih =>
    rw [sortDescBy, filter_insertDescBy]
    by_cases hxv : key x = v <;> simp [List.filter_cons, hxv, ih]

/-- The loop of `score_item` counts the keywords contained in the item
text. -/
theorem score_item_eq_count (item : Item) (intent : Intent) :
    score_item item intent
      = (intent.keywords.filter (fun kw => pyIn kw (itemScoreText item))).length := by
  unfold score_item
  have h : ∀ (l : List Str) (n : Nat),
      l.foldl (fun score kw => if pyIn kw (itemScoreText item) then score + 1 else score) n
        = n + (l.filter (fun kw => pyIn kw (itemScoreText item))).length := by
    intro l
    induction l with
    | nil => intro n; simp
    | cons k l ih =>
      intro n
      cases hk : pyIn k (itemScoreText item) <;>
        simp [List.foldl_cons, List.filter_cons, hk, ih] <;> omega
  simpa using h intent.keywords 0

/-- The C7 counterexample item (`description = "POOL party"`). -/
def c7Item : Item := { description := pystr "POOL party" }

/-- The C7 counterexample intent (`keywords = ["POOL"]`). -/
def c7Intent : Intent := { keywords := [pystr "POOL"] }

/-- C7 (counterexample to the claim as stated): the keyword `"POOL"`
occurs case-insensitively in the item's concatenated text, so the claimed
case-insensitive score is 1 — but `score_item` lower-cases only the item
text, not the keyword, and yields 0. -/
theorem C7_cex :
    score_item c7Item c7Intent = 0 ∧
    (c7Intent.keywords.filter
      (fun kw => pyIn (pyLower kw) (pyLower (itemScoreText c7Item)))).length = 1 := by
  decide

/-- C7 (amended): each item's score is the number of intent keywords
occurring verbatim as substrings of the lower-cased concatenated
sub-category/category/description text (keywords themselves are not
lower-cased); when some item scores positively, the search returns the
positively-scored items stably sorted by descending score — descending by
score, each score level kept in catalog order — truncated to the first
`limit`; otherwise it returns the whole normalized slice in catalog order
truncated to `limit`. -/
theorem C7_search_rank_spec (rawItems : List Item) (intent : Intent) (limit : Nat) :
    (∀ item, score_item item intent
      = (intent.keywords.filter (fun kw => pyIn kw (itemScoreText item))).length) ∧
    ((scoredItems rawItems intent).filter (fun i => decide (0 < i.score)) = [] →
      search_rank rawItems intent limit = (scoredItems rawItems intent).take limit) ∧
    ((scoredItems rawItems intent).filter (fun i => decide (0 < i.score)) ≠ [] →
      search_rank rawItems intent limit
        = (sortDescBy (fun i => i.score)
            ((scoredItems rawItems intent).filter (fun i => decide (0 < i.score)))).take limit ∧
      (sortDescBy (fun i => i.score)
          ((scoredItems rawItems intent).filter (fun i => decide (0 < i.score)))).Pairwise
        (fun a b => b.score ≤ a.score) ∧
      ∀ v, (sortDescBy (fun i => i.score)
          ((scoredItems rawItems intent).filter (fun i => decide (0 < i.score)))).filter
            (fun i => i.score == v)
        = ((scoredItems rawItems intent).filter (fun i => decide (0 < i.score))).filter
            (fun i => i.score == v)) := by
  refine ⟨fun item => score_item_eq_count item intent, ?_, ?_⟩
  · intro hempty
    unfold search_rank
    dsimp only
    rw [if_pos (by simp [hempty])]
  · intro hne
    refine ⟨?_, sortDescBy_pairwise _ _, fun v => filter_sortDescBy _ v _⟩
    unfold search_rank
    dsimp only
    rw [if_neg (by simp [List.isEmpty_iff, hne])]

/-- C7 witness items: one unmatched and two tied matched items. -/
def w7Items : List Item :=
  [ { description := pystr "garden walk" }
  , { vendor_name := pystr "Pool View A", description := pystr "pool side" }
  , { vendor_name := pystr "Pool View B", description := pystr "pool deck" } ]

/-- C7 witness intent (`keywords = ["pool"]`). -/
def w7Intent : Intent := { keywords := [pystr "pool"] }

/-- C7 witness: the amended ranking theorem applied to the concrete
three-item slice with keyword `"pool"` (two tied positive scores). -/
theorem C7_witness :
    search_rank w7Items w7Intent 30
      = (sortDescBy (fun i => i.score)
          ((scoredItems w7Items w7Intent).filter (fun i => decide (0 < i.score)))).take 30 :=
  ((C7_search_rank_spec w7Items w7Intent 30).2.2 (by decide)).1

end Anvi
